import Mathlib

/-!
Verification of the `soul-rings` rendering components.

Shallow embedding of the two source files:
* `src/components/MandalaBase.tsx` — viewport-filling mandala of three rings.
* `src/components/Ornaments.tsx` — decorative ornament glyph with neon strokes.

Canvas drawing calls are modelled as values in small datatypes (draw-op lists,
gradient descriptions, context-state records); the numeric computations of the
source are carried over verbatim on `ℝ`.
-/

namespace SoulRings

/-! ## Ornament: pulse factor and scale (Ornaments.tsx, lines 152–165) -/

/-- Embeds Ornaments.tsx line 154:
`const pulseFactor = pulse ? 0.965 + 0.035 * Math.sin(now / 250) : 1.0;`
`now` is the timestamp (in milliseconds) handed to the frame callback by the
host's frame scheduler. -/
noncomputable def pulseFactor (pulse : Bool) (now : ℝ) : ℝ :=
  if pulse then 0.965 + 0.035 * Real.sin (now / 250) else 1.0

/-- Embeds Ornaments.tsx lines 164–165:
`const baseDesignHeight = 160; const scale = (size / baseDesignHeight) * pulseFactor;` -/
noncomputable def ornamentScale (size : ℝ) (pulse : Bool) (now : ℝ) : ℝ :=
  let baseDesignHeight : ℝ := 160
  (size / baseDesignHeight) * pulseFactor pulse now

/-! ## MandalaBase: dotted-ring dot positions (MandalaBase.tsx, lines 72–82) -/

/-- Embeds the dotted branch of `drawCircle` (MandalaBase.tsx lines 72–82):
`angleStep = 2π/dotCount`; the i-th dot is plotted at
`(x + cos(i·angleStep)·radius, y + sin(i·angleStep)·radius)`. -/
noncomputable def dottedRingDots (x y radius : ℝ) (dotCount : ℕ) : List (ℝ × ℝ) :=
  let angleStep := 2 * Real.pi / dotCount
  (List.range dotCount).map fun i : ℕ =>
    (x + Real.cos ((i : ℝ) * angleStep) * radius,
     y + Real.sin ((i : ℝ) * angleStep) * radius)

/-- Euclidean distance in the canvas plane. -/
noncomputable def euclidDist (p q : ℝ × ℝ) : ℝ :=
  Real.sqrt ((p.1 - q.1) ^ 2 + (p.2 - q.2) ^ 2)

/-! ## MandalaBase: glow-ring radial gradient (MandalaBase.tsx, lines 33–41) -/

/-- A canvas radial gradient: inner radius `r0`, outer radius `r1`, and its
ordered list of color stops (offset, color-string) as added by `addColorStop`. -/
structure RadialGradient where
  cx : ℝ
  cy : ℝ
  r0 : ℝ
  r1 : ℝ
  stops : List (ℝ × String)

/-- Embeds `drawGlowingRing`'s gradient construction (MandalaBase.tsx lines 33–41):
`innerRadius = radius - thickness/2`, `outerRadius = radius + thickness/2`,
stops `0 ↦ "transparent"`, `0.4 ↦ color+"80"`, `0.5 ↦ color`,
`0.6 ↦ color+"80"`, `1 ↦ "transparent"`. The `"80"` suffix appends the hex
alpha byte 0x80 = 128/255 ≈ 50.2% to the color string. -/
noncomputable def glowGradient (x y radius thickness : ℝ) (color : String) : RadialGradient :=
  let innerRadius := radius - thickness / 2
  let outerRadius := radius + thickness / 2
  { cx := x, cy := y, r0 := innerRadius, r1 := outerRadius,
    stops := [(0, "transparent"), (0.4, color ++ "80"), (0.5, color),
              (0.6, color ++ "80"), (1, "transparent")] }

/-! ## MandalaBase: drawing operations and per-frame render (lines 13–23, 55–113) -/

/-- One observable drawing operation of MandalaBase.  `glowRing` abstracts the
gradient-annulus fill of `drawGlowingRing` (its gradient is `glowGradient`);
`dot` is one filled 2px-radius arc of the dotted branch of `drawCircle`;
`strokeCircle` is the plain stroked-circle branch. -/
inductive DrawOp where
  | clearRect (x y w h : ℝ)
  | glowRing (x y radius thickness : ℝ) (color : String)
  | strokeCircle (x y radius : ℝ) (color : String) (lineWidth : ℝ)
  | dot (x y r : ℝ) (color : String)

/-- The options object of `drawCircle` (MandalaBase.tsx lines 59–64); a `none`
field was omitted at the call site and takes the destructuring default. -/
structure CircleOptions where
  color : Option String
  lineWidth : Option ℝ
  dotted : Option Bool
  dotCount : Option ℕ

/-- Embeds `drawCircle` (MandalaBase.tsx lines 55–90): defaults
`color = "#ff00ff"`, `lineWidth = 2`, `dotted = false`, `dotCount = 120`;
if dotted, one 2px dot per index at the positions of `dottedRingDots`,
else a single stroked circle. -/
noncomputable def drawCircleOps (x y radius : ℝ) (options : CircleOptions) : List DrawOp :=
  let color := options.color.getD "#ff00ff"
  let lineWidth := options.lineWidth.getD 2
  let dotted := options.dotted.getD false
  let dotCount := options.dotCount.getD 120
  if dotted then
    (dottedRingDots x y radius dotCount).map fun p => DrawOp.dot p.1 p.2 2 color
  else
    [DrawOp.strokeCircle x y radius color lineWidth]

/-- The MandalaBase canvas backing store: set to the window size by `resize`. -/
structure MandalaCanvas where
  width : ℝ
  height : ℝ

/-- Embeds `resize` (MandalaBase.tsx lines 13–16): unconditionally overwrites
the canvas dimensions with the current window dimensions. -/
def mandalaResize (_prior : MandalaCanvas) (innerWidth innerHeight : ℝ) : MandalaCanvas :=
  { width := innerWidth, height := innerHeight }

/-- Embeds one frame of `render` (MandalaBase.tsx lines 92–113): center at
half the canvas dimensions, clear the surface, then glow ring (r=170, t=60,
"#ff00ff"), solid ring (r=200, "#ff66ff", width 4), dotted ring (r=230,
"#ff00ff", 160 dots). -/
noncomputable def renderOps (canvas : MandalaCanvas) : List DrawOp :=
  let x := canvas.width / 2
  let y := canvas.height / 2
  [DrawOp.clearRect 0 0 canvas.width canvas.height,
   DrawOp.glowRing x y 170 60 "#ff00ff"]
  ++ drawCircleOps x y 200 ⟨some "#ff66ff", some 4, none, none⟩
  ++ drawCircleOps x y 230 ⟨some "#ff00ff", none, some true, some 160⟩

/-! ## Ornament: high-DPI canvas sizing (Ornaments.tsx, lines 27–35) -/

/-- The observable sizing state of the Ornament canvas: backing pixel
dimensions, CSS style dimensions, and the context transform matrix
`(a, b, c, d, e, f)` set by `setTransform`. -/
structure OrnamentCanvas where
  width : ℤ
  height : ℤ
  styleWidth : ℝ
  styleHeight : ℝ
  transform : ℝ × ℝ × ℝ × ℝ × ℝ × ℝ

/-- Embeds `resizeCanvas` (Ornaments.tsx lines 27–35):
`dpr = window.devicePixelRatio || 1` (the JS falsy fallback is modelled as
replacing 0 by 1), backing size `ceil(size*dpr)` square, CSS size `size`
square, and `ctx.setTransform(dpr, 0, 0, dpr, 0, 0)`. -/
noncomputable def resizeCanvas (size dprRaw : ℝ) : OrnamentCanvas :=
  let dpr := if dprRaw = 0 then 1 else dprRaw
  { width := ⌈size * dpr⌉, height := ⌈size * dpr⌉,
    styleWidth := size, styleHeight := size,
    transform := (dpr, 0, 0, dpr, 0, 0) }

/-! ## Ornament: neon stroke primitive (Ornaments.tsx, lines 38–64) -/

/-- The mutable 2D-context attributes touched by `neonStroke`. -/
structure CtxState where
  strokeStyle : String
  lineWidth : ℝ
  shadowColor : String
  shadowBlur : ℝ
  globalAlpha : ℝ
  lineJoin : String
  lineCap : String

/-- A full context: current attribute record plus the `save`/`restore` stack. -/
structure Ctx2D where
  cur : CtxState
  stack : List CtxState

/-- `ctx.save()`: push a copy of the current attributes. -/
def ctxSave (st : Ctx2D) : Ctx2D :=
  { cur := st.cur, stack := st.cur :: st.stack }

/-- `ctx.restore()`: pop the most recent save (no-op on an empty stack). -/
def ctxRestore (st : Ctx2D) : Ctx2D :=
  match st.stack with
  | [] => st
  | top :: rest => { cur := top, stack := rest }

/-- Apply a mutation to the current attributes, e.g. `ctx.lineWidth = v`. -/
def setCtx (f : CtxState → CtxState) (st : Ctx2D) : Ctx2D :=
  { cur := f st.cur, stack := st.stack }

/-- One `ctx.stroke()` call, recorded with the attribute values in force. -/
structure StrokeOp where
  strokeStyle : String
  lineWidth : ℝ
  shadowColor : String
  shadowBlur : ℝ
  globalAlpha : ℝ
  lineJoin : String
  lineCap : String

/-- Record the current attributes as a stroke of the caller-built path. -/
def strokeOf (c : CtxState) : StrokeOp :=
  { strokeStyle := c.strokeStyle, lineWidth := c.lineWidth,
    shadowColor := c.shadowColor, shadowBlur := c.shadowBlur,
    globalAlpha := c.globalAlpha, lineJoin := c.lineJoin, lineCap := c.lineCap }

/-- The options object of `neonStroke` (Ornaments.tsx line 41); `none` means
the field was omitted and takes the destructuring default. -/
structure NeonOpts where
  w : Option ℝ
  blur : Option ℝ
  alpha : Option ℝ

/-- Embeds `neonStroke` (Ornaments.tsx lines 38–64), with the component
configuration `glow` and `color` captured from the closure.  Defaults
`w = 2.2`, `blur = glow`, `alpha = 1`.  Returns the context after the call
and the list of strokes performed, in order. -/
noncomputable def neonStroke (glow : ℝ) (color : String) (opts : NeonOpts)
    (st : Ctx2D) : Ctx2D × List StrokeOp :=
  let w := opts.w.getD 2.2
  let blur := opts.blur.getD glow
  let alpha := opts.alpha.getD 1
  let st := ctxSave st
  let st := setCtx (fun c => { c with lineJoin := "round" }) st
  let st := setCtx (fun c => { c with lineCap := "round" }) st
  let st := setCtx (fun c => { c with globalAlpha := alpha }) st
  let st := setCtx (fun c => { c with shadowColor := color }) st
  let st := setCtx (fun c => { c with shadowBlur := blur }) st
  let st := setCtx (fun c => { c with strokeStyle := color }) st
  let st := setCtx (fun c => { c with lineWidth := w * 2.6 }) st
  let op1 := strokeOf st.cur
  let st := setCtx (fun c => { c with shadowBlur := 0 }) st
  let st := setCtx (fun c => { c with strokeStyle := color }) st
  let st := setCtx (fun c => { c with lineWidth := w }) st
  let op2 := strokeOf st.cur
  (ctxRestore st, [op1, op2])

/-! ## Lifecycle: frame loop, resize listener, unmount cleanup
(MandalaBase.tsx lines 92–118, Ornaments.tsx lines 143–193) -/

/-- Observable lifecycle state of one mounted component instance:
whether a frame callback is scheduled, whether the window resize listener is
attached, and how many times the canvas surface has been mutated (each frame
render and each resize-handler run mutates it). -/
structure LoopState where
  framePending : Bool
  resizeAttached : Bool
  mutations : ℕ
deriving DecidableEq, Repr

/-- Events the host can deliver after mount. -/
inductive HostEvent where
  | frame
  | resize
deriving DecidableEq, Repr

/-- Host-event semantics shared by both components: a scheduled frame callback
runs the render (mutating the surface) and schedules the next frame
(MandalaBase.tsx line 112, Ornaments.tsx line 179); a dispatched resize event
runs the resize handler (mutating the surface) iff the listener is attached
(MandalaBase.tsx line 18, Ornaments.tsx line 186). -/
def loopStep (s : LoopState) : HostEvent → LoopState
  | HostEvent.frame =>
      if s.framePending then
        { framePending := true, resizeAttached := s.resizeAttached,
          mutations := s.mutations + 1 }
      else s
  | HostEvent.resize =>
      if s.resizeAttached then { s with mutations := s.mutations + 1 } else s

/-- State right after a successful mount: the loop is scheduled and the resize
listener attached (`m` mutations already performed by the initial render). -/
def mounted (m : ℕ) : LoopState :=
  { framePending := true, resizeAttached := true, mutations := m }

/-- Embeds MandalaBase's effect cleanup (MandalaBase.tsx line 117):
`() => window.removeEventListener("resize", resize)` — the resize listener is
removed but the pending animation frame is NOT cancelled. -/
def mandalaCleanup (s : LoopState) : LoopState :=
  { s with resizeAttached := false }

/-- Embeds Ornament's effect cleanup (Ornaments.tsx lines 188–191):
`cancelAnimationFrame(rafRef.current)` and
`window.removeEventListener("resize", onResize)`. -/
def ornamentCleanup (s : LoopState) : LoopState :=
  { s with framePending := false, resizeAttached := false }

/-! ## Mount guards (MandalaBase.tsx lines 6–11, Ornaments.tsx lines 143–147) -/

/-- A canvas element reference as seen by the mount effect: `getContext("2d")`
may return null, modelled by the `context2d` option. -/
structure Surface where
  context2d : Option Unit

/-- Outcome of running a component's mount effect. -/
structure MountOutcome where
  resizeListenerAttached : Bool
  loopStarted : Bool
  surfaceMutated : Bool
deriving DecidableEq, Repr

/-- Embeds MandalaBase's mount effect guards (MandalaBase.tsx lines 6–17):
`if (!canvas) return; if (!ctx) return;` — otherwise `resize()` mutates the
surface, the resize listener is attached and `render()` starts the loop.
The effect never throws, so the result is always `Except.ok`. -/
def mandalaMount (canvas : Option Surface) : Except String MountOutcome :=
  Except.ok <|
    match canvas with
    | none => { resizeListenerAttached := false, loopStarted := false, surfaceMutated := false }
    | some c =>
      match c.context2d with
      | none => { resizeListenerAttached := false, loopStarted := false, surfaceMutated := false }
      | some _ => { resizeListenerAttached := true, loopStarted := true, surfaceMutated := true }

/-- Embeds Ornament's mount effect guards (Ornaments.tsx lines 143–149, 182–186):
`if (!canvas) return; if (!ctx) return;` — otherwise `resizeCanvas(canvas)`
mutates the surface, the loop is scheduled and the resize listener attached.
The effect never throws, so the result is always `Except.ok`. -/
def ornamentMount (canvas : Option Surface) : Except String MountOutcome :=
  Except.ok <|
    match canvas with
    | none => { resizeListenerAttached := false, loopStarted := false, surfaceMutated := false }
    | some c =>
      match c.context2d with
      | none => { resizeListenerAttached := false, loopStarted := false, surfaceMutated := false }
      | some _ => { resizeListenerAttached := true, loopStarted := true, surfaceMutated := true }

/-! ## Helper lemmas -/

/-- Branch equation for `pulseFactor` with pulsing enabled. -/
lemma pulseFactor_true (t : ℝ) :
    pulseFactor true t = 0.965 + 0.035 * Real.sin (t / 250) := by
  simp [pulseFactor]

/-- Branch equation for `pulseFactor` with pulsing disabled. -/
lemma pulseFactor_false (t : ℝ) : pulseFactor false t = 1 := by
  norm_num [pulseFactor]

/-- A state with no pending frame and no attached listener absorbs any event. -/
lemma loopStep_inert (s : LoopState) (h1 : s.framePending = false)
    (h2 : s.resizeAttached = false) (e : HostEvent) : loopStep s e = s := by
  cases e <;> simp [loopStep, h1, h2]

/-- A fully detached state absorbs any event sequence. -/
lemma foldl_inert (evs : List HostEvent) (s : LoopState) (h1 : s.framePending = false)
    (h2 : s.resizeAttached = false) : evs.foldl loopStep s = s := by
  induction evs with
  | nil => rfl
  | cons e evs ih => rw [List.foldl_cons, loopStep_inert s h1 h2 e]; exact ih

/-- With the resize listener detached, a resize event is a no-op. -/
lemma loopStep_resize_detached (s : LoopState) (h : s.resizeAttached = false) :
    loopStep s HostEvent.resize = s := by
  simp [loopStep, h]

/-- With the resize listener detached, resize-only event sequences are no-ops. -/
lemma foldl_resize_detached (evs : List HostEvent) (s : LoopState)
    (h : s.resizeAttached = false) (hall : ∀ e ∈ evs, e = HostEvent.resize) :
    evs.foldl loopStep s = s := by
  induction evs with
  | nil => rfl
  | cons e evs ih =>
    have he := hall e (List.mem_cons_self e evs)
    subst he
    rw [List.foldl_cons, loopStep_resize_detached s h]
    exact ih fun e hmem => hall e (List.mem_cons_of_mem _ hmem)

/-! ## Claim theorems -/

/-- Claim C1: for every Ornament frame, the pulse factor equals
`0.965 + 0.035·sin(t/250)` when pulsing is enabled, where `t` is the
millisecond timestamp the frame scheduler hands the frame callback, and
equals 1 when pulsing is disabled. -/
theorem pulseFactor_formula (t : ℝ) :
    pulseFactor true t = 0.965 + 0.035 * Real.sin (t / 250) ∧
    pulseFactor false t = 1 :=
  ⟨pulseFactor_true t, pulseFactor_false t⟩

/-- Claim C2, counterexample: the scale factor is NOT a sinusoid of period
500 ms — already at size 160, one 500 ms step from t = 0 changes its value
(`sin(500/250) = sin 2 ≠ 0`). -/
theorem ornamentScale_period_cex :
    ornamentScale 160 true 500 ≠ ornamentScale 160 true 0 := by
  have h2 : 0 < Real.sin 2 :=
    Real.sin_pos_of_pos_of_lt_pi (by norm_num) (by linarith [Real.pi_gt_three])
  have e1 : ornamentScale 160 true 500 = 0.965 + 0.035 * Real.sin 2 := by
    rw [ornamentScale, pulseFactor_true]
    norm_num
  have e2 : ornamentScale 160 true 0 = 0.965 := by
    rw [ornamentScale, pulseFactor_true]
    norm_num
  rw [e1, e2]
  intro h
  linarith

/-- Claim C2 (amended): with `pulse = true` the scale factor stays within
`[0.93·(size/160), 1.0·(size/160)]` and is a sinusoid in elapsed time of
period `500π` ms (≈ 1570.8 ms), not 500 ms. -/
theorem ornamentScale_bounds_and_period (size t : ℝ) (hsize : 0 ≤ size) :
    0.93 * (size / 160) ≤ ornamentScale size true t ∧
    ornamentScale size true t ≤ 1.0 * (size / 160) ∧
    ornamentScale size true (t + 500 * Real.pi) = ornamentScale size true t := by
  have hs1 := Real.neg_one_le_sin (t / 250)
  have hs2 := Real.sin_le_one (t / 250)
  have hnn : (0 : ℝ) ≤ size / 160 := by positivity
  refine ⟨?_, ?_, ?_⟩
  · rw [ornamentScale, pulseFactor_true]
    have expand : size / 160 * (0.965 + 0.035 * Real.sin (t / 250)) - 0.93 * (size / 160)
        = 0.035 * (size / 160 * (Real.sin (t / 250) + 1)) := by ring
    have hprod : (0 : ℝ) ≤ size / 160 * (Real.sin (t / 250) + 1) :=
      mul_nonneg hnn (by linarith)
    linarith
  · rw [ornamentScale, pulseFactor_true]
    have expand : 1.0 * (size / 160) - size / 160 * (0.965 + 0.035 * Real.sin (t / 250))
        = 0.035 * (size / 160 * (1 - Real.sin (t / 250))) := by ring
    have hprod : (0 : ℝ) ≤ size / 160 * (1 - Real.sin (t / 250)) :=
      mul_nonneg hnn (by linarith)
    linarith
  · rw [ornamentScale, ornamentScale, pulseFactor_true, pulseFactor_true,
      show (t + 500 * Real.pi) / 250 = t / 250 + 2 * Real.pi by ring,
      Real.sin_add_two_pi]

/-- Witness for `ornamentScale_bounds_and_period` at `size = 160`, `t = 0`. -/
theorem ornamentScale_bounds_and_period_witness :
    (0 : ℝ) ≤ 160 ∧
    (0.93 * ((160 : ℝ) / 160) ≤ ornamentScale 160 true 0 ∧
     ornamentScale 160 true 0 ≤ 1.0 * ((160 : ℝ) / 160) ∧
     ornamentScale 160 true (0 + 500 * Real.pi) = ornamentScale 160 true 0) :=
  ⟨by norm_num, ornamentScale_bounds_and_period 160 0 (by norm_num)⟩

/-- Claim C3, counterexample: after MandalaBase unmounts, its cleanup removes
only the resize listener (MandalaBase.tsx line 117) and never cancels the
pending animation frame, so the next frame callback still fires and mutates
the surface: starting from a freshly mounted state with 0 mutations, one frame
event after unmount leaves a nonzero mutation count. -/
theorem mandala_unmount_frame_cex :
    (loopStep (mandalaCleanup (mounted 0)) HostEvent.frame).mutations ≠
      (mounted 0).mutations := by
  decide

/-- Claim C3 (amended): after an Ornament unmounts, no event sequence mutates
its surface (frame loop cancelled and resize listener removed); after a
MandalaBase unmounts, the resize listener is removed so dispatched resize
events mutate nothing, but the frame loop itself is not cancelled. -/
theorem unmount_quiescence_amended (s : LoopState) (evs : List HostEvent) :
    (evs.foldl loopStep (ornamentCleanup s)).mutations = s.mutations ∧
    ((∀ e ∈ evs, e = HostEvent.resize) →
      (evs.foldl loopStep (mandalaCleanup s)).mutations = s.mutations) := by
  constructor
  · rw [foldl_inert evs (ornamentCleanup s) rfl rfl]
    rfl
  · intro hall
    rw [foldl_resize_detached evs (mandalaCleanup s) rfl hall]
    rfl

/-- Witness for `unmount_quiescence_amended` on concrete event sequences. -/
theorem unmount_quiescence_amended_witness :
    (([HostEvent.frame, HostEvent.resize].foldl loopStep
        (ornamentCleanup (mounted 5))).mutations = (mounted 5).mutations) ∧
    (([HostEvent.resize, HostEvent.resize].foldl loopStep
        (mandalaCleanup (mounted 5))).mutations = (mounted 5).mutations) :=
  ⟨(unmount_quiescence_amended (mounted 5) [HostEvent.frame, HostEvent.resize]).1,
   (unmount_quiescence_amended (mounted 5) [HostEvent.resize, HostEvent.resize]).2
     (by decide)⟩

/-- Claim C4: a dotted ring with `dotCount = N ≥ 1` and radius `R ≥ 0` plots
exactly N dots, the i-th at angle `i·(2π/N)` and every dot at Euclidean
distance R from the center. -/
theorem dottedRing_dots_spec (x y R : ℝ) (N : ℕ) (hN : 1 ≤ N) (hR : 0 ≤ R) :
    (dottedRingDots x y R N).length = N ∧
    (∀ i : ℕ, i < N →
      (dottedRingDots x y R N)[i]? =
        some (x + Real.cos (i * (2 * Real.pi / N)) * R,
              y + Real.sin (i * (2 * Real.pi / N)) * R)) ∧
    (∀ p ∈ dottedRingDots x y R N, euclidDist p (x, y) = R) := by
  refine ⟨by simp only [dottedRingDots, List.length_map, List.length_range],
    fun i hi => ?_, fun p hp => ?_⟩
  · simp only [dottedRingDots, List.getElem?_map, List.getElem?_range, hi, if_true,
      Option.map_some']
  · simp only [dottedRingDots, List.mem_map, List.mem_range] at hp
    obtain ⟨i, hi, rfl⟩ := hp
    simp only [euclidDist]
    rw [show (x + Real.cos (i * (2 * Real.pi / N)) * R, y + Real.sin (i * (2 * Real.pi / N)) * R).1
          - (x, y).1 = Real.cos (i * (2 * Real.pi / N)) * R by simp,
        show (x + Real.cos (i * (2 * Real.pi / N)) * R, y + Real.sin (i * (2 * Real.pi / N)) * R).2
          - (x, y).2 = Real.sin (i * (2 * Real.pi / N)) * R by simp]
    rw [show (Real.cos (i * (2 * Real.pi / N)) * R) ^ 2
          + (Real.sin (i * (2 * Real.pi / N)) * R) ^ 2 = R ^ 2 by
        linear_combination R ^ 2 * Real.sin_sq_add_cos_sq (i * (2 * Real.pi / N))]
    exact Real.sqrt_sq hR

/-- Witness for `dottedRing_dots_spec` with N = 4 dots of radius 1 at the
origin. -/
theorem dottedRing_dots_spec_witness :
    1 ≤ 4 ∧ (0 : ℝ) ≤ 1 ∧
    ((dottedRingDots 0 0 1 4).length = 4 ∧
     (∀ i : ℕ, i < 4 →
       (dottedRingDots 0 0 1 4)[i]? =
         some ((0 : ℝ) + Real.cos (i * (2 * Real.pi / (4 : ℕ))) * 1,
               (0 : ℝ) + Real.sin (i * (2 * Real.pi / (4 : ℕ))) * 1)) ∧
     (∀ p ∈ dottedRingDots 0 0 1 4, euclidDist p (0, 0) = 1)) :=
  ⟨by norm_num, by norm_num, dottedRing_dots_spec 0 0 1 4 (by norm_num) (by norm_num)⟩

/-- Claim C5: for every color, radius and thickness, the glow-ring gradient
spans `[radius − thickness/2, radius + thickness/2]` and has exactly the stops
`{0: transparent, 0.4: color+"80" (alpha 0x80 ≈ 50%), 0.5: color,
0.6: color+"80", 1: transparent}`. -/
theorem glowGradient_stops_spec (x y radius thickness : ℝ) (color : String) :
    (glowGradient x y radius thickness color).r0 = radius - thickness / 2 ∧
    (glowGradient x y radius thickness color).r1 = radius + thickness / 2 ∧
    (glowGradient x y radius thickness color).stops =
      [((0 : ℝ), "transparent"), ((0.4 : ℝ), color ++ "80"), ((0.5 : ℝ), color),
       ((0.6 : ℝ), color ++ "80"), ((1 : ℝ), "transparent")] :=
  ⟨rfl, rfl, rfl⟩

/-- Claim C6: for every size S > 0 and devicePixelRatio > 0, after
`resizeCanvas` the CSS dimensions are S×S, the backing pixel dimensions are
`ceil(S·dpr)` in each axis, and the uniform scale transform
`(dpr, 0, 0, dpr, 0, 0)` is applied. -/
theorem resizeCanvas_spec (size dpr : ℝ) (hS : 0 < size) (hd : 0 < dpr) :
    (resizeCanvas size dpr).styleWidth = size ∧
    (resizeCanvas size dpr).styleHeight = size ∧
    (resizeCanvas size dpr).width = ⌈size * dpr⌉ ∧
    (resizeCanvas size dpr).height = ⌈size * dpr⌉ ∧
    (resizeCanvas size dpr).transform = (dpr, 0, 0, dpr, 0, 0) := by
  simp [resizeCanvas, hd.ne']

/-- Witness for `resizeCanvas_spec` at size 160 and devicePixelRatio 2. -/
theorem resizeCanvas_spec_witness :
    (0 : ℝ) < 160 ∧ (0 : ℝ) < 2 ∧
    ((resizeCanvas 160 2).styleWidth = 160 ∧
     (resizeCanvas 160 2).styleHeight = 160 ∧
     (resizeCanvas 160 2).width = ⌈(160 : ℝ) * 2⌉ ∧
     (resizeCanvas 160 2).height = ⌈(160 : ℝ) * 2⌉ ∧
     (resizeCanvas 160 2).transform = (2, 0, 0, 2, 0, 0)) :=
  ⟨by norm_num, by norm_num, resizeCanvas_spec 160 2 (by norm_num) (by norm_num)⟩

/-- Claim C7: rendering a MandalaBase frame in an 800×600 viewport — whatever
the prior canvas size, after the resize handler runs — clears the surface and
draws, in order, the glow ring (radius 170, thickness 60), the solid ring
(radius 200, line width 4) and the dotted ring (radius 230, 160 dots), all
centered at (400, 300). -/
theorem mandala_render_800x600 (prior : MandalaCanvas) :
    renderOps (mandalaResize prior 800 600) =
      [DrawOp.clearRect 0 0 800 600,
       DrawOp.glowRing 400 300 170 60 "#ff00ff",
       DrawOp.strokeCircle 400 300 200 "#ff66ff" 4]
      ++ (List.range 160).map (fun i : ℕ =>
            DrawOp.dot (400 + Real.cos ((i : ℝ) * (2 * Real.pi / 160)) * 230)
                       (300 + Real.sin ((i : ℝ) * (2 * Real.pi / 160)) * 230) 2 "#ff00ff") := by
  norm_num [renderOps, mandalaResize, drawCircleOps, dottedRingDots, List.map_map,
    Function.comp]

/-- Claim C8: `neonStroke` strokes the given path exactly twice — first with
line width `w·2.6`, the blur option (default: the configured glow) and the
configured color, then with line width `w` (default 2.2) and shadow blur 0 —
both passes at the alpha option (default 1) with round joins and caps. -/
theorem neonStroke_two_strokes (glow : ℝ) (color : String) (opts : NeonOpts)
    (st : Ctx2D) :
    (neonStroke glow color opts st).2 =
      [{ strokeStyle := color, lineWidth := opts.w.getD 2.2 * 2.6,
         shadowColor := color, shadowBlur := opts.blur.getD glow,
         globalAlpha := opts.alpha.getD 1, lineJoin := "round", lineCap := "round" },
       { strokeStyle := color, lineWidth := opts.w.getD 2.2,
         shadowColor := color, shadowBlur := 0,
         globalAlpha := opts.alpha.getD 1, lineJoin := "round", lineCap := "round" }] :=
  rfl

/-- Claim C9: for both components, when the canvas reference is null or the 2D
context is unavailable, the mount effect attaches no resize listener, starts
no animation loop, touches no surface, and returns normally (never an error). -/
theorem mount_guard_noop (canvas : Option Surface)
    (h : canvas = none ∨ ∃ c, canvas = some c ∧ c.context2d = none) :
    mandalaMount canvas =
      Except.ok { resizeListenerAttached := false, loopStarted := false,
                  surfaceMutated := false } ∧
    ornamentMount canvas =
      Except.ok { resizeListenerAttached := false, loopStarted := false,
                  surfaceMutated := false } := by
  rcases h with rfl | ⟨c, rfl, hc⟩
  · exact ⟨rfl, rfl⟩
  · simp [mandalaMount, ornamentMount, hc]

/-- Witness for `mount_guard_noop` with a null canvas reference. -/
theorem mount_guard_noop_witness :
    ((none : Option Surface) = none ∨
      ∃ c, (none : Option Surface) = some c ∧ c.context2d = none) ∧
    (mandalaMount none =
      Except.ok { resizeListenerAttached := false, loopStarted := false,
                  surfaceMutated := false } ∧
     ornamentMount none =
      Except.ok { resizeListenerAttached := false, loopStarted := false,
                  surfaceMutated := false }) :=
  ⟨Or.inl rfl, mount_guard_noop none (Or.inl rfl)⟩

/-- Claim C10: `neonStroke` restores the drawing context it was given — the
context after the call (current attributes and save stack) equals the context
before it, for every configuration, option record and starting context. -/
theorem neonStroke_preserves_ctx (glow : ℝ) (color : String) (opts : NeonOpts)
    (st : Ctx2D) :
    (neonStroke glow color opts st).1 = st :=
  rfl

end SoulRings
